import Mathlib

/-!
Verification development for the Jefferson Bar & Grill backend
(`main.py`, `schemas.py`).

The program stores flat JSON-like documents in named collections of a
document store.  We embed documents as association lists of field name to
value, the store as an association list of collection name to document
list, and each endpoint handler of `main.py` as a pure Lean function.
The store adapter (`database.py` is not part of the sources; only its
callers are) is modelled from the specification of the Document Store
Adapter: `insert` appends a document to a collection, `find` returns up
to `limit` documents matching every entry of an equality filter, `count`
returns the number of documents in a collection.
-/

/-- A JSON-compatible field value as used by the documents of this
backend: strings, integers, floats (modelled exactly as rationals),
booleans, timestamps (`datetime`, modelled as seconds), and `None`. -/
inductive Value where
  | str (s : String)
  | int (n : Int)
  | num (q : Rat)
  | bool (b : Bool)
  | time (t : Nat)
  | null
deriving DecidableEq

/-- A document: a flat record of named fields (a Python dict, so keys are
unique in every document the program builds). -/
abbrev Document := List (String × Value)

/-- An equality filter, as passed to the adapter's `find`. -/
abbrev DocFilter := List (String × Value)

/-- Dictionary lookup on a document (first occurrence of the key). -/
def dlookup (d : Document) (k : String) : Option Value :=
  match d with
  | [] => none
  | (k', v) :: rest => if k' = k then some v else dlookup rest k

/-- `matchesFilter q d` holds when every entry of the filter `q` is
present in `d` with exactly the given value (an empty filter matches
every document), as the adapter contract states. -/
def matchesFilter (q : DocFilter) (d : Document) : Bool :=
  q.all (fun kv => decide (dlookup d kv.1 = some kv.2))

/-- The document store: named collections of documents, in insertion
order. -/
abbrev Store := List (String × List Document)

/-- The documents of collection `c` (a missing collection is empty). -/
def getColl (st : Store) (c : String) : List Document :=
  match st with
  | [] => []
  | (c', ds) :: rest => if c' = c then ds else getColl rest c

/-- Replace the contents of collection `c`. -/
def setColl (st : Store) (c : String) (ds : List Document) : Store :=
  match st with
  | [] => [(c, ds)]
  | (c', ds') :: rest =>
    if c' = c then (c, ds) :: rest else (c', ds') :: setColl rest c ds

/-- Modelled from the spec: the adapter's `insert` (`create_document` of
the absent `database.py`) appends the document to the collection. -/
def create_document (c : String) (d : Document) (st : Store) : Store :=
  setColl st c (getColl st c ++ [d])

/-- Modelled from the spec: the adapter's `find` (`get_documents` of the
absent `database.py`) returns up to `limit` documents of the collection
matching every entry of the filter, in store order. -/
def get_documents (c : String) (q : DocFilter) (limit : Nat) (st : Store) :
    List Document :=
  ((getColl st c).filter (fun d => matchesFilter q d)).take limit

/-- `d.pop("_id", None)`: remove the store-assigned identifier field. -/
def stripId (d : Document) : Document :=
  d.filter (fun kv => decide (kv.1 ≠ "_id"))

/-- `GET /api/testimonials` (`list_testimonials` of `main.py`): fetch up
to `limit` testimonials with the empty filter and strip `_id`. -/
def list_testimonials (limit : Nat) (st : Store) : List Document :=
  (get_documents "testimonial" [] limit st).map stripId

/-- `GET /api/menu` (`list_menu` of `main.py`).  The query is
`{"category": category} if category else {}`: by Python truthiness both
`None` and the empty string produce the empty filter. -/
def list_menu (category : Option String) (limit : Nat) (st : Store) :
    List Document :=
  let query : DocFilter :=
    match category with
    | some c => if c = "" then [] else [("category", Value.str c)]
    | none => []
  (get_documents "menuitem" query limit st).map stripId

/-- `GET /api/events` (`list_events` of `main.py`): the query is
`{"is_holiday_special": True} if holiday_only else {}`. -/
def list_events (holiday_only : Bool) (limit : Nat) (st : Store) :
    List Document :=
  let query : DocFilter :=
    if holiday_only then [("is_holiday_special", Value.bool true)] else []
  (get_documents "event" query limit st).map stripId

/-- `GET /api/gallery` (`list_gallery` of `main.py`): same shape as
`list_menu`, over the `galleryitem` collection. -/
def list_gallery (category : Option String) (limit : Nat) (st : Store) :
    List Document :=
  let query : DocFilter :=
    match category with
    | some c => if c = "" then [] else [("category", Value.str c)]
    | none => []
  (get_documents "galleryitem" query limit st).map stripId

/-!
## Inquiry write path

`POST /api/inquiry` receives a JSON body that the framework validates
against the Pydantic model `InquiryIn` before `create_inquiry` runs:
`name`, `email`, `message` are required strings, `email` must be a
syntactically valid address, `phone` is an optional string.  A payload
failing validation is rejected with a client error (HTTP 422) and the
handler never runs.  On success, `create_inquiry` inserts
`payload.model_dump()` into the `inquiry` collection.
-/

/-- Modelled from the spec: syntactic validity of an email address (the
`EmailStr` check lives in the external `pydantic`/`email-validator`
libraries).  The spec only requires "a syntactically valid email
address"; we model the essential shape: exactly one `@` with a nonempty
local part and a domain containing a dot, no spaces. -/
def isValidEmail (s : String) : Bool :=
  let cs := s.toList
  let atSplit := cs.splitOn '@'
  match atSplit with
  | [local_, domain] =>
    local_ ≠ [] && domain.contains '.' && domain.head? != some '.' &&
      domain.getLast? != some '.' && !cs.contains ' '
  | _ => false

/-- The request model `InquiryIn` of `main.py`. -/
structure InquiryIn where
  name : String
  email : String
  message : String
  phone : Option String
deriving DecidableEq

/-- Framework-side validation of the request body against `InquiryIn`:
the three required fields must be present strings, `email` must pass the
`EmailStr` check, `phone` may be absent, `None`, or a string. -/
def validateInquiryIn (d : Document) : Except String InquiryIn :=
  match dlookup d "name", dlookup d "email", dlookup d "message" with
  | some (.str n), some (.str e), some (.str m) =>
    if isValidEmail e then
      match dlookup d "phone" with
      | none => .ok ⟨n, e, m, none⟩
      | some .null => .ok ⟨n, e, m, none⟩
      | some (.str p) => .ok ⟨n, e, m, some p⟩
      | some _ => .error "phone: string expected"
    else .error "value is not a valid email address"
  | _, _, _ => .error "field required / string expected"

/-- `payload.model_dump()` for `InquiryIn`: the four declared fields,
with `phone=None` serialised as `None`.  `InquiryIn` declares no
`source` field, so the dump contains none. -/
def inquiryDump (p : InquiryIn) : Document :=
  [("name", .str p.name), ("email", .str p.email),
   ("message", .str p.message),
   ("phone", match p.phone with | some s => .str s | none => .null)]

/-- The HTTP outcomes the inquiry route can produce. -/
inductive InquiryResponse where
  /-- Framework rejection of the body, HTTP 422. -/
  | clientError (status : Nat)
  /-- The fixed acknowledgement body of `create_inquiry`. -/
  | ack (ok : Bool) (message : String)
  deriving DecidableEq

/-- `create_inquiry` of `main.py`: insert the dumped payload into the
`inquiry` collection and answer the fixed acknowledgement.  (The
handler's `try/except` turns a store write failure into HTTP 500; the
pure store model cannot fail, so only the success branch is
reachable.) -/
def create_inquiry (p : InquiryIn) (st : Store) : InquiryResponse × Store :=
  (.ack true "Thanks! We'll be in touch soon.",
   create_document "inquiry" (inquiryDump p) st)

/-- The full `POST /api/inquiry` route: framework validation first; a
payload failing validation is rejected with HTTP 422 before any store
interaction, otherwise `create_inquiry` runs. -/
def postInquiry (d : Document) (st : Store) : InquiryResponse × Store :=
  match validateInquiryIn d with
  | .error _ => (.clientError 422, st)
  | .ok p => create_inquiry p st

/-!
## Diagnostic endpoint `GET /test`

`test_database` builds a status dictionary.  Its inputs from the outside
world: whether the module-level `db` handle is non-`None`, whether the
two environment values are set, and the outcome of
`db.list_collection_names()` (which may raise).  Every failure branch is
caught inside the function, so it is total.
-/

/-- The status object returned by `GET /test`. -/
structure DiagStatus where
  backend : String
  database : String
  database_url : String
  database_name : String
  collections : List String
deriving DecidableEq

/-- `test_database` of `main.py`.  `dbSome` is `db is not None`;
`urlSet`/`nameSet` report the two environment values; `listColls` is the
outcome of `db.list_collection_names()`, whose error text is truncated
to 80 characters. -/
def test_database (dbSome urlSet nameSet : Bool)
    (listColls : Except String (List String)) : DiagStatus :=
  if dbSome then
    let base : DiagStatus :=
      { backend := "✅ Running", database := "✅ Connected",
        database_url := if urlSet then "✅ Set" else "❌ Not Set",
        database_name := if nameSet then "✅ Set" else "❌ Not Set",
        collections := [] }
    match listColls with
    | .ok names => { base with collections := names }
    | .error e =>
      { base with database :=
          "⚠️ Connected but error listing collections: " ++ e.take 80 }
  else
    { backend := "✅ Running", database := "❌ Not Initialized",
      database_url := "❌ Not Set", database_name := "❌ Not Set",
      collections := [] }

/-!
## Seed bootstrapper

`seed_default_content` runs at import time.  It talks to the store
through `count_documents` and `create_document`, either of which may
raise; a single `try/except Exception: pass` wraps all four collection
blocks, so an exception anywhere skips the rest of the body but the
function itself always returns normally, keeping the side effects
already performed.  We inject failures through a `Behavior` record and
thread the store state through an explicit except/state pair.
-/

/-- A store behaviour: which adapter calls raise.  `countFails c` makes
`db.<c>.count_documents` raise; `insertFails c d` makes the insert of
document `d` into collection `c` raise. -/
structure Behavior where
  countFails : String → Bool
  insertFails : String → Document → Bool

/-- The behaviour of an available, fully working store: no call fails. -/
def okB : Behavior := ⟨fun _ => false, fun _ _ => false⟩

/-- `db.<c>.count_documents` under behaviour `b`. -/
def bCount (b : Behavior) (c : String) (st : Store) : Except String Nat :=
  if b.countFails c then .error "count failed"
  else .ok (getColl st c).length

/-- One `create_document` call under behaviour `b`. -/
def bInsert (b : Behavior) (c : String) (d : Document) (st : Store) :
    Except String Store :=
  if b.insertFails c d then .error "insert failed"
  else .ok (create_document c d st)

/-- The `for x in docs: create_document(c, x)` loop: inserts in order,
stops at the first raising insert, keeping the inserts already done. -/
def insertAll (b : Behavior) (c : String) :
    List Document → Store → Except String Unit × Store
  | [], st => (.ok (), st)
  | d :: ds, st =>
    match bInsert b c d st with
    | .error e => (.error e, st)
    | .ok st' => insertAll b c ds st'

/-- One collection block of the seeder: count the collection and, if it
is empty, insert the fixed document list. -/
def seedColl (b : Behavior) (c : String) (docs : List Document)
    (st : Store) : Except String Unit × Store :=
  match bCount b c st with
  | .error e => (.error e, st)
  | .ok n => if n = 0 then insertAll b c docs st else (.ok (), st)

/-- The two hardcoded seed testimonials of `seed_default_content`. -/
def seedTestimonials : List Document :=
  [ [("author", .str "Local Regular"),
     ("quote", .str "Food was great, beer was affordable, and the vibe felt like home."),
     ("rating", .int 5), ("source", .str "Google")],
    [("author", .str "First-time Visitor"),
     ("quote", .str "Warm staff, great cocktails, and the neighborhood energy is real."),
     ("rating", .int 5), ("source", .str "Facebook")] ]

/-- The four hardcoded seed menu items. -/
def seedMenuItems : List Document :=
  [ [("name", .str "Smash Burger"),
     ("description", .str "Double patty, melted cheese, house sauce"),
     ("price", .num 12), ("category", .str "Mains")],
    [("name", .str "Wings"),
     ("description", .str "Crispy wings, choice of sauces"),
     ("price", .num 11), ("category", .str "Starters")],
    [("name", .str "House Old Fashioned"),
     ("description", .str "Bourbon, bitters, orange twist"),
     ("price", .num 10), ("category", .str "Cocktails")],
    [("name", .str "Holiday Spiced Cider"),
     ("description", .str "Seasonal, warm and cozy"),
     ("price", .num 8), ("category", .str "Cocktails"),
     ("is_seasonal", .bool true)] ]

/-- The two hardcoded seed events; their `start_time` is
`datetime.utcnow()` plus 3 resp. 7 days, so they depend on the current
time `now` (in seconds). -/
def seedEvents (now : Nat) : List Document :=
  [ [("title", .str "Holiday Trivia Night"),
     ("description", .str "Bring your crew for festive trivia and prizes."),
     ("start_time", .time (now + 3 * 86400)),
     ("location", .str "The Jefferson Bar & Grill"),
     ("is_holiday_special", .bool true)],
    [("title", .str "Christmas Eve Dinner Specials"),
     ("description", .str "Limited-run holiday plates and cocktails."),
     ("start_time", .time (now + 7 * 86400)),
     ("location", .str "The Jefferson Bar & Grill"),
     ("is_holiday_special", .bool true)] ]

/-- The two hardcoded seed gallery items. -/
def seedGallery : List Document :=
  [ [("title", .str "Warm Lit Bar"),
     ("image_url", .str "/images/bar-warm.jpg"),
     ("category", .str "interior")],
    [("title", .str "Holiday Lights"),
     ("image_url", .str "/images/holiday-lights.jpg"),
     ("category", .str "holiday")] ]

/-- The body of the seeder's `try` block: the four collection blocks in
source order; an exception in one block aborts the following blocks. -/
def seedBody (b : Behavior) (now : Nat) (st : Store) :
    Except String Unit × Store :=
  match seedColl b "testimonial" seedTestimonials st with
  | (.error e, s) => (.error e, s)
  | (.ok _, s1) =>
    match seedColl b "menuitem" seedMenuItems s1 with
    | (.error e, s) => (.error e, s)
    | (.ok _, s2) =>
      match seedColl b "event" (seedEvents now) s2 with
      | (.error e, s) => (.error e, s)
      | (.ok _, s3) => seedColl b "galleryitem" seedGallery s3

/-- `seed_default_content` of `main.py`.  `dbSome` is `db is not None`
(when `db` is `None` the body returns at once); the catch-all
`except Exception: pass` makes the function return normally with the
state reached when the exception was raised. -/
def seed_default_content (dbSome : Bool) (b : Behavior) (now : Nat)
    (st : Store) : Except String Unit × Store :=
  if dbSome then (.ok (), (seedBody b now st).2) else (.ok (), st)

/-!
## Testimonial schema (`schemas.py`)

Pydantic validation of a stored document against the `Testimonial`
model: `author` and `quote` are required strings; `rating` is declared
`Optional[int] = Field(5, ge=1, le=5)`, so an absent field defaults to
`5`, an explicit `None` is accepted as-is (the bounds apply only to
integers), and an integer must lie in `1..5`; `source` is an optional
string.
-/

/-- The `Testimonial` model of `schemas.py`. -/
structure Testimonial where
  author : String
  quote : String
  rating : Option Int
  source : Option String
deriving DecidableEq

/-- Validation of the `rating` field:
`Optional[int] = Field(5, ge=1, le=5)`. -/
def ratingField (d : Document) : Except String (Option Int) :=
  match dlookup d "rating" with
  | none => .ok (some 5)
  | some .null => .ok none
  | some (.int n) =>
    if 1 ≤ n ∧ n ≤ 5 then .ok (some n) else .error "rating: out of range"
  | some _ => .error "rating: integer expected"

/-- Validation of the `source` field: `Optional[str] = Field(None, ...)`. -/
def sourceField (d : Document) : Except String (Option String) :=
  match dlookup d "source" with
  | none => .ok none
  | some .null => .ok none
  | some (.str s) => .ok (some s)
  | some _ => .error "source: string expected"

/-- Pydantic validation of a document against `Testimonial`. -/
def validateTestimonial (d : Document) : Except String Testimonial :=
  match dlookup d "author", dlookup d "quote", ratingField d,
        sourceField d with
  | some (.str a), some (.str q), .ok r, .ok s => .ok ⟨a, q, r, s⟩
  | _, _, _, _ => .error "validation error"

/-!
## Store lemmas
-/

theorem getColl_setColl_same (st : Store) (c : String)
    (ds : List Document) : getColl (setColl st c ds) c = ds := by
  induction st with
  | nil => simp [getColl, setColl]
  | cons hd tl ih =>
    obtain ⟨c', ds'⟩ := hd
    by_cases h : c' = c
    · simp [setColl, getColl, h]
    · simp [setColl, getColl, h, ih]

theorem getColl_setColl_other (st : Store) (c c' : String)
    (ds : List Document) (h : c' ≠ c) :
    getColl (setColl st c ds) c' = getColl st c' := by
  induction st with
  | nil => simp [getColl, setColl, Ne.symm h]
  | cons hd tl ih =>
    obtain ⟨c'', ds''⟩ := hd
    by_cases hc : c'' = c
    · subst hc
      simp [setColl, getColl, Ne.symm h]
    · simp [setColl, getColl, hc, ih]

theorem getColl_create_same (st : Store) (c : String) (d : Document) :
    getColl (create_document c d st) c = getColl st c ++ [d] := by
  simp [create_document, getColl_setColl_same]

theorem getColl_create_other (st : Store) (c c' : String) (d : Document)
    (h : c' ≠ c) :
    getColl (create_document c d st) c' = getColl st c' := by
  simp [create_document, getColl_setColl_other _ _ _ _ h]

/-!
## Seed lemmas
-/

/-- Whatever the behaviour, the insert loop of one collection block never
touches another collection. -/
theorem insertAll_getColl_other (b : Behavior) (c c' : String)
    (docs : List Document) (st : Store) (h : c' ≠ c) :
    getColl (insertAll b c docs st).2 c' = getColl st c' := by
  induction docs generalizing st with
  | nil => rfl
  | cons d ds ih =>
    unfold insertAll bInsert
    by_cases hf : b.insertFails c d
    · simp [hf]
    · simp [hf, ih, getColl_create_other _ _ _ _ h]

theorem okB_countFails (c : String) : okB.countFails c = false := rfl

theorem okB_insertFails (c : String) (d : Document) :
    okB.insertFails c d = false := rfl

/-- Under the fully working behaviour the insert loop never raises. -/
theorem insertAll_okB_fst (c : String) (docs : List Document)
    (st : Store) : (insertAll okB c docs st).1 = .ok () := by
  induction docs generalizing st with
  | nil => rfl
  | cons d ds ih => simp [insertAll, bInsert, okB_insertFails, ih]

/-- Under the fully working behaviour the insert loop appends exactly
its document list to the collection. -/
theorem insertAll_okB_getColl_same (c : String) (docs : List Document)
    (st : Store) :
    getColl (insertAll okB c docs st).2 c = getColl st c ++ docs := by
  induction docs generalizing st with
  | nil => simp [insertAll]
  | cons d ds ih =>
    simp [insertAll, bInsert, okB_insertFails, ih, getColl_create_same]

/-- Whatever the behaviour, one collection block never touches another
collection. -/
theorem seedColl_getColl_other (b : Behavior) (c c' : String)
    (docs : List Document) (st : Store) (h : c' ≠ c) :
    getColl (seedColl b c docs st).2 c' = getColl st c' := by
  unfold seedColl bCount
  by_cases hf : b.countFails c
  · simp [hf]
  · by_cases hz : (getColl st c).length = 0
    · simp [hf, hz, insertAll_getColl_other _ _ _ _ _ h]
    · simp [hf, hz]

/-- Under the fully working behaviour, a block over an empty collection
is exactly its insert loop. -/
theorem seedColl_okB_empty (c : String) (docs : List Document)
    (st : Store) (h : (getColl st c).length = 0) :
    seedColl okB c docs st = insertAll okB c docs st := by
  simp [seedColl, bCount, okB_countFails, h]

/-- Under the fully working behaviour, a block over a non-empty
collection does nothing. -/
theorem seedColl_okB_nonempty (c : String) (docs : List Document)
    (st : Store) (h : (getColl st c).length ≠ 0) :
    seedColl okB c docs st = (.ok (), st) := by
  simp [seedColl, bCount, okB_countFails, h]

/-!
## Identifier stripping and filter lemmas
-/

/-- After `stripId` the store identifier is gone. -/
theorem dlookup_stripId_id (d : Document) :
    dlookup (stripId d) "_id" = none := by
  induction d with
  | nil => rfl
  | cons kv rest ih =>
    obtain ⟨k, v⟩ := kv
    by_cases h : k = "_id"
    · simp [stripId, dlookup, h] at ih ⊢
      exact ih
    · simp [stripId, dlookup, h] at ih ⊢
      exact ih

/-- `stripId` leaves every other field untouched. -/
theorem dlookup_stripId_ne (d : Document) (k : String) (h : k ≠ "_id") :
    dlookup (stripId d) k = dlookup d k := by
  induction d with
  | nil => rfl
  | cons kv rest ih =>
    obtain ⟨k', v⟩ := kv
    by_cases h' : k' = "_id"
    · subst h'
      simp [stripId, dlookup, Ne.symm h] at ih ⊢
      exact ih
    · by_cases hk : k' = k
      · simp [stripId, List.filter_cons, h', hk, h, dlookup]
      · simp [stripId, dlookup, h', hk] at ih ⊢
        exact ih

/-- An empty filter matches every document, so `find` with `{}` returns
the first `limit` documents of the collection. -/
theorem get_documents_nil (c : String) (limit : Nat) (st : Store) :
    get_documents c [] limit st = (getColl st c).take limit := by
  simp [get_documents, matchesFilter]

/-- A document returned by `find` satisfies every filter entry. -/
theorem mem_get_documents (c : String) (q : DocFilter) (limit : Nat)
    (st : Store) (d : Document) (hd : d ∈ get_documents c q limit st)
    (k : String) (v : Value) (hkv : (k, v) ∈ q) :
    dlookup d k = some v := by
  unfold get_documents at hd
  have hmem := List.mem_of_mem_take hd
  have hfil := List.of_mem_filter hmem
  have := List.all_eq_true.mp hfil (k, v) hkv
  simpa using this

/-!
## Claim theorems
-/

/-- C7: the seed bootstrapper never propagates an exception to its
caller.  For every store behaviour (store handle absent, any count
failing, any single insert failing) and every store state,
`seed_default_content` returns normally: its except component is always
`ok`, so seeding never prevents the process from starting. -/
theorem claim_C7_seed_never_raises (dbSome : Bool) (b : Behavior)
    (now : Nat) (st : Store) :
    (seed_default_content dbSome b now st).1 = .ok () := by
  unfold seed_default_content
  split <;> rfl

/-- C8: the diagnostic endpoint is total — for every store state it
produces a response with `backend = "✅ Running"` — and when no store
connection exists (`db is None`) the response reports a not-initialized
database, unset configuration, and an empty `collections` list. -/
theorem claim_C8_diag_total (dbSome urlSet nameSet : Bool)
    (listColls : Except String (List String)) :
    (test_database dbSome urlSet nameSet listColls).backend =
      "✅ Running" ∧
    (dbSome = false →
      test_database dbSome urlSet nameSet listColls =
        ⟨"✅ Running", "❌ Not Initialized", "❌ Not Set", "❌ Not Set",
         []⟩) := by
  cases dbSome with
  | false => exact ⟨rfl, fun _ => rfl⟩
  | true =>
    refine ⟨?_, fun h => by cases h⟩
    cases listColls <;> rfl

/-- C8 witness: with `db` absent the endpoint returns the fixed
not-initialized status object. -/
theorem claim_C8_diag_total_witness :
    test_database false true true (.ok ["x"]) =
      ⟨"✅ Running", "❌ Not Initialized", "❌ Not Set", "❌ Not Set",
       []⟩ :=
  (claim_C8_diag_total false true true (.ok ["x"])).2 rfl

/-- C1: refuted — the write endpoint inserts `payload.model_dump()` of
`InquiryIn`, which declares no `source` field, so the document stored in
the `inquiry` collection has no `source` field at all (the `Inquiry`
model of `schemas.py`, which defaults `source` to `"website"`, is never
applied on this path).  Evaluated at a concrete accepted submission. -/
theorem claim_C1_inserted_doc_has_no_source :
    getColl
      (postInquiry
        [("name", Value.str "Ada"),
         ("email", Value.str "ada@example.com"),
         ("message", Value.str "Table for two")] []).2 "inquiry" =
      [[("name", Value.str "Ada"),
        ("email", Value.str "ada@example.com"),
        ("message", Value.str "Table for two"),
        ("phone", Value.null)]] ∧
    dlookup
      [("name", Value.str "Ada"),
       ("email", Value.str "ada@example.com"),
       ("message", Value.str "Table for two"),
       ("phone", Value.null)] "source" = none := by
  constructor <;> rfl

/-- Under the fully working behaviour, seeding a fresh store fills each
of the four collections with exactly its hardcoded document list. -/
theorem seedBody_okB_fresh (now : Nat) (st : Store)
    (hz1 : getColl st "testimonial" = [])
    (hz2 : getColl st "menuitem" = [])
    (hz3 : getColl st "event" = [])
    (hz4 : getColl st "galleryitem" = []) :
    getColl (seedBody okB now st).2 "testimonial" = seedTestimonials ∧
    getColl (seedBody okB now st).2 "menuitem" = seedMenuItems ∧
    getColl (seedBody okB now st).2 "event" = seedEvents now ∧
    getColl (seedBody okB now st).2 "galleryitem" = seedGallery := by
  have q1 : seedColl okB "testimonial" seedTestimonials st =
      (.ok (), (insertAll okB "testimonial" seedTestimonials st).2) := by
    rw [seedColl_okB_empty _ _ _ (by rw [hz1]; rfl)]
    exact Prod.ext (insertAll_okB_fst _ _ _) rfl
  have g1t : getColl (insertAll okB "testimonial" seedTestimonials st).2
      "testimonial" = seedTestimonials := by
    rw [insertAll_okB_getColl_same, hz1, List.nil_append]
  have g1m : getColl (insertAll okB "testimonial" seedTestimonials st).2
      "menuitem" = [] := by
    rw [insertAll_getColl_other _ _ _ _ _ (by decide), hz2]
  have g1e : getColl (insertAll okB "testimonial" seedTestimonials st).2
      "event" = [] := by
    rw [insertAll_getColl_other _ _ _ _ _ (by decide), hz3]
  have g1g : getColl (insertAll okB "testimonial" seedTestimonials st).2
      "galleryitem" = [] := by
    rw [insertAll_getColl_other _ _ _ _ _ (by decide), hz4]
  have q2 : seedColl okB "menuitem" seedMenuItems
      (insertAll okB "testimonial" seedTestimonials st).2 =
      (.ok (), (insertAll okB "menuitem" seedMenuItems
        (insertAll okB "testimonial" seedTestimonials st).2).2) := by
    rw [seedColl_okB_empty _ _ _ (by rw [g1m]; rfl)]
    exact Prod.ext (insertAll_okB_fst _ _ _) rfl
  have g2t : getColl (insertAll okB "menuitem" seedMenuItems
      (insertAll okB "testimonial" seedTestimonials st).2).2
      "testimonial" = seedTestimonials := by
    rw [insertAll_getColl_other _ _ _ _ _ (by decide), g1t]
  have g2m : getColl (insertAll okB "menuitem" seedMenuItems
      (insertAll okB "testimonial" seedTestimonials st).2).2
      "menuitem" = seedMenuItems := by
    rw [insertAll_okB_getColl_same, g1m, List.nil_append]
  have g2e : getColl (insertAll okB "menuitem" seedMenuItems
      (insertAll okB "testimonial" seedTestimonials st).2).2
      "event" = [] := by
    rw [insertAll_getColl_other _ _ _ _ _ (by decide), g1e]
  have g2g : getColl (insertAll okB "menuitem" seedMenuItems
      (insertAll okB "testimonial" seedTestimonials st).2).2
      "galleryitem" = [] := by
    rw [insertAll_getColl_other _ _ _ _ _ (by decide), g1g]
  set s2 := (insertAll okB "menuitem" seedMenuItems
    (insertAll okB "testimonial" seedTestimonials st).2).2 with hs2
  have q3 : seedColl okB "event" (seedEvents now) s2 =
      (.ok (), (insertAll okB "event" (seedEvents now) s2).2) := by
    rw [seedColl_okB_empty _ _ _ (by rw [g2e]; rfl)]
    exact Prod.ext (insertAll_okB_fst _ _ _) rfl
  have g3t : getColl (insertAll okB "event" (seedEvents now) s2).2
      "testimonial" = seedTestimonials := by
    rw [insertAll_getColl_other _ _ _ _ _ (by decide), g2t]
  have g3m : getColl (insertAll okB "event" (seedEvents now) s2).2
      "menuitem" = seedMenuItems := by
    rw [insertAll_getColl_other _ _ _ _ _ (by decide), g2m]
  have g3e : getColl (insertAll okB "event" (seedEvents now) s2).2
      "event" = seedEvents now := by
    rw [insertAll_okB_getColl_same, g2e, List.nil_append]
  have g3g : getColl (insertAll okB "event" (seedEvents now) s2).2
      "galleryitem" = [] := by
    rw [insertAll_getColl_other _ _ _ _ _ (by decide), g2g]
  set s3 := (insertAll okB "event" (seedEvents now) s2).2 with hs3
  have q4 : seedColl okB "galleryitem" seedGallery s3 =
      (.ok (), (insertAll okB "galleryitem" seedGallery s3).2) := by
    rw [seedColl_okB_empty _ _ _ (by rw [g3g]; rfl)]
    exact Prod.ext (insertAll_okB_fst _ _ _) rfl
  have hbody : (seedBody okB now st).2 =
      (insertAll okB "galleryitem" seedGallery s3).2 := by
    simp only [seedBody, q1, q2, q3, q4]
  rw [hbody]
  refine ⟨?_, ?_, ?_, ?_⟩
  · rw [insertAll_getColl_other _ _ _ _ _ (by decide), g3t]
  · rw [insertAll_getColl_other _ _ _ _ _ (by decide), g3m]
  · rw [insertAll_getColl_other _ _ _ _ _ (by decide), g3e]
  · rw [insertAll_okB_getColl_same, g3g, List.nil_append]

/-- Under the fully working behaviour, seeding a store whose four
content collections are all non-empty changes nothing. -/
theorem seedBody_okB_nonempty (now : Nat) (st : Store)
    (hn1 : (getColl st "testimonial").length ≠ 0)
    (hn2 : (getColl st "menuitem").length ≠ 0)
    (hn3 : (getColl st "event").length ≠ 0)
    (hn4 : (getColl st "galleryitem").length ≠ 0) :
    seedBody okB now st = (.ok (), st) := by
  simp only [seedBody, seedColl_okB_nonempty _ _ _ hn1,
    seedColl_okB_nonempty _ _ _ hn2, seedColl_okB_nonempty _ _ _ hn3,
    seedColl_okB_nonempty _ _ _ hn4]

/-- C2: with the store available (no call fails) and all four content
collections empty, one seeder invocation inserts exactly 2 testimonial,
4 menuitem, 2 event and 2 galleryitem documents; invoking it again on
the resulting store (all counts now non-zero) inserts nothing — the
store is returned unchanged. -/
theorem claim_C2_seed_counts_idempotent (now : Nat) (st : Store)
    (h1 : (getColl st "testimonial").length = 0)
    (h2 : (getColl st "menuitem").length = 0)
    (h3 : (getColl st "event").length = 0)
    (h4 : (getColl st "galleryitem").length = 0) :
    (getColl (seed_default_content true okB now st).2 "testimonial").length
        = 2 ∧
    (getColl (seed_default_content true okB now st).2 "menuitem").length
        = 4 ∧
    (getColl (seed_default_content true okB now st).2 "event").length
        = 2 ∧
    (getColl (seed_default_content true okB now st).2 "galleryitem").length
        = 2 ∧
    seed_default_content true okB now
        (seed_default_content true okB now st).2 =
      (.ok (), (seed_default_content true okB now st).2) := by
  have hz1 : getColl st "testimonial" = [] := List.length_eq_zero.mp h1
  have hz2 : getColl st "menuitem" = [] := List.length_eq_zero.mp h2
  have hz3 : getColl st "event" = [] := List.length_eq_zero.mp h3
  have hz4 : getColl st "galleryitem" = [] := List.length_eq_zero.mp h4
  obtain ⟨gt, gm, ge, gg⟩ := seedBody_okB_fresh now st hz1 hz2 hz3 hz4
  have hsd : ∀ s : Store, seed_default_content true okB now s =
      (.ok (), (seedBody okB now s).2) := fun _ => rfl
  have hb : seedBody okB now (seedBody okB now st).2 =
      (.ok (), (seedBody okB now st).2) := by
    refine seedBody_okB_nonempty now _ ?_ ?_ ?_ ?_
    · rw [gt]; simp [seedTestimonials]
    · rw [gm]; simp [seedMenuItems]
    · rw [ge]; simp [seedEvents]
    · rw [gg]; simp [seedGallery]
  simp only [hsd]
  refine ⟨?_, ?_, ?_, ?_, ?_⟩
  · rw [gt]; rfl
  · rw [gm]; rfl
  · rw [ge]; simp [seedEvents]
  · rw [gg]; rfl
  · rw [hb]

/-- C2 witness: seeding the empty store at time 0 yields counts
2, 4, 2, 2, and a second invocation returns the store unchanged. -/
theorem claim_C2_seed_counts_idempotent_witness :
    (getColl (seed_default_content true okB 0 []).2 "testimonial").length
        = 2 ∧
    (getColl (seed_default_content true okB 0 []).2 "menuitem").length
        = 4 ∧
    (getColl (seed_default_content true okB 0 []).2 "event").length
        = 2 ∧
    (getColl (seed_default_content true okB 0 []).2 "galleryitem").length
        = 2 ∧
    seed_default_content true okB 0
        (seed_default_content true okB 0 []).2 =
      (.ok (), (seed_default_content true okB 0 []).2) :=
  claim_C2_seed_counts_idempotent 0 [] rfl rfl rfl rfl

/-- If the testimonial block raises, the whole body stops there: the
final state is the state at the failing block. -/
theorem seedBody_error_testimonial (b : Behavior) (now : Nat) (st : Store)
    (e : String)
    (he : (seedColl b "testimonial" seedTestimonials st).1 = .error e) :
    (seedBody b now st).2 =
      (seedColl b "testimonial" seedTestimonials st).2 := by
  unfold seedBody
  rcases hsc : seedColl b "testimonial" seedTestimonials st with ⟨r, s⟩
  rw [hsc] at he
  have hre : r = .error e := he
  subst hre
  rfl

/-- If the testimonial block succeeds and the menuitem block raises, the
body stops at the menuitem block. -/
theorem seedBody_error_menuitem (b : Behavior) (now : Nat) (st : Store)
    (e : String) (s1 : Store)
    (h1 : seedColl b "testimonial" seedTestimonials st = (.ok (), s1))
    (he : (seedColl b "menuitem" seedMenuItems s1).1 = .error e) :
    (seedBody b now st).2 = (seedColl b "menuitem" seedMenuItems s1).2 := by
  unfold seedBody
  rw [h1]
  dsimp only
  rcases hsc : seedColl b "menuitem" seedMenuItems s1 with ⟨r, s⟩
  rw [hsc] at he
  have hre : r = .error e := he
  subst hre
  rfl

/-- C10: a single catch-all wraps all four collection blocks of the
seeder, so an exception in an earlier block skips every later block of
the fixed order (testimonial, menuitem, event, galleryitem) for that
invocation: if the testimonial block raises, the menuitem, event and
galleryitem collections are left exactly as they were; if it succeeds
and the menuitem block raises, the event and galleryitem collections are
left as they were.  Partial seed state is therefore possible. -/
theorem claim_C10_partial_seed (b : Behavior) (now : Nat) (st : Store) :
    (∀ e, (seedColl b "testimonial" seedTestimonials st).1 = .error e →
      getColl (seed_default_content true b now st).2 "menuitem" =
        getColl st "menuitem" ∧
      getColl (seed_default_content true b now st).2 "event" =
        getColl st "event" ∧
      getColl (seed_default_content true b now st).2 "galleryitem" =
        getColl st "galleryitem") ∧
    (∀ e s1,
      seedColl b "testimonial" seedTestimonials st = (.ok (), s1) →
      (seedColl b "menuitem" seedMenuItems s1).1 = .error e →
      getColl (seed_default_content true b now st).2 "event" =
        getColl st "event" ∧
      getColl (seed_default_content true b now st).2 "galleryitem" =
        getColl st "galleryitem") := by
  have hsd : (seed_default_content true b now st).2 =
      (seedBody b now st).2 := rfl
  constructor
  · intro e he
    rw [hsd, seedBody_error_testimonial b now st e he]
    refine ⟨?_, ?_, ?_⟩ <;>
      exact seedColl_getColl_other _ _ _ _ _ (by decide)
  · intro e s1 h1 he
    rw [hsd, seedBody_error_menuitem b now st e s1 h1 he]
    have hs1 : ∀ c, c ≠ "testimonial" → getColl s1 c = getColl st c := by
      intro c hc
      have := seedColl_getColl_other b "testimonial" c seedTestimonials st hc
      rw [h1] at this
      exact this
    constructor
    · rw [seedColl_getColl_other _ _ _ _ _ (by decide),
        hs1 "event" (by decide)]
    · rw [seedColl_getColl_other _ _ _ _ _ (by decide),
        hs1 "galleryitem" (by decide)]

/-- A behaviour whose inserts into `testimonial` all raise. -/
def failTestimonialB : Behavior :=
  ⟨fun _ => false, fun c _ => decide (c = "testimonial")⟩

/-- C10 witness: with every `testimonial` insert raising, seeding the
empty store leaves the three later collections untouched. -/
theorem claim_C10_partial_seed_witness :
    getColl (seed_default_content true failTestimonialB 0 []).2
      "menuitem" = getColl ([] : Store) "menuitem" ∧
    getColl (seed_default_content true failTestimonialB 0 []).2
      "event" = getColl ([] : Store) "event" ∧
    getColl (seed_default_content true failTestimonialB 0 []).2
      "galleryitem" = getColl ([] : Store) "galleryitem" :=
  (claim_C10_partial_seed failTestimonialB 0 []).1 "insert failed" rfl

/-- C4: for every store state and limit, `list_events` with
`holiday_only=true` returns only documents whose `is_holiday_special`
field is `true`, and with `holiday_only=false` (the default) it queries
with the empty filter, returning the first `limit` event documents
regardless of that flag (identifier stripped). -/
theorem claim_C4_events_filter (st : Store) (limit : Nat) :
    (∀ d ∈ list_events true limit st,
      dlookup d "is_holiday_special" = some (Value.bool true)) ∧
    list_events false limit st =
      ((getColl st "event").take limit).map stripId := by
  constructor
  · intro d hd
    simp only [list_events, if_true] at hd
    obtain ⟨d', hd', rfl⟩ := List.mem_map.mp hd
    rw [dlookup_stripId_ne _ _ (by decide)]
    exact mem_get_documents _ _ _ _ _ hd' _ _ (List.mem_singleton.mpr rfl)
  · show List.map stripId (get_documents "event" [] limit st) =
      List.map stripId (List.take limit (getColl st "event"))
    rw [get_documents_nil]

/-- A store with one holiday and one non-holiday event. -/
def stEvents : Store :=
  [("event",
    [[("_id", Value.str "e1"), ("title", Value.str "Trivia"),
      ("is_holiday_special", Value.bool true)],
     [("_id", Value.str "e2"), ("title", Value.str "Open Mic"),
      ("is_holiday_special", Value.bool false)]])]

/-- C4 witness: the holiday view of `stEvents` contains the stripped
holiday event, whose flag is indeed `true`. -/
theorem claim_C4_events_filter_witness :
    dlookup [("title", Value.str "Trivia"),
             ("is_holiday_special", Value.bool true)]
      "is_holiday_special" = some (Value.bool true) :=
  (claim_C4_events_filter stEvents 20).1 _ (by decide)

/-- A store with two categorised menu items and one gallery item. -/
def stMenuGal : Store :=
  [("menuitem",
    [[("_id", Value.str "m1"), ("name", Value.str "Smash Burger"),
      ("category", Value.str "Mains")],
     [("_id", Value.str "m2"),
      ("name", Value.str "House Old Fashioned"),
      ("category", Value.str "Cocktails")]]),
   ("galleryitem",
    [[("_id", Value.str "g1"), ("title", Value.str "Bar"),
      ("image_url", Value.str "/i.jpg"),
      ("category", Value.str "interior")]])]

/-- C5 counterexample: the claim says a supplied filter value always
yields the filter `{field: value}` (exact matches only), but supplying
the empty string is falsy in Python, so `list_menu` queries with `{}`:
on `stMenuGal` with `category=""` it returns a document whose
`category` is `"Mains"`, not `""`. -/
theorem claim_C5_counterexample :
    list_menu (some "") 50 stMenuGal =
      [[("name", Value.str "Smash Burger"),
        ("category", Value.str "Mains")],
       [("name", Value.str "House Old Fashioned"),
        ("category", Value.str "Cocktails")]] ∧
    dlookup [("name", Value.str "Smash Burger"),
             ("category", Value.str "Mains")] "category" =
      some (Value.str "Mains") ∧
    Value.str "Mains" ≠ Value.str "" := by
  refine ⟨by decide, by decide, by decide⟩

/-- C5 (amended): whenever a NON-EMPTY filter value is supplied,
`list_menu` and `list_gallery` query with `{category: value}`, so every
returned document matches it exactly; when the value is absent — or is
the empty string, which is falsy in Python — they query with the empty
filter `{}`. -/
theorem claim_C5_filters_amended (st : Store) (limit : Nat)
    (c : String) :
    (c ≠ "" →
      (∀ d ∈ list_menu (some c) limit st,
        dlookup d "category" = some (Value.str c)) ∧
      (∀ d ∈ list_gallery (some c) limit st,
        dlookup d "category" = some (Value.str c))) ∧
    list_menu none limit st =
      ((getColl st "menuitem").take limit).map stripId ∧
    list_menu (some "") limit st =
      ((getColl st "menuitem").take limit).map stripId ∧
    list_gallery none limit st =
      ((getColl st "galleryitem").take limit).map stripId ∧
    list_gallery (some "") limit st =
      ((getColl st "galleryitem").take limit).map stripId := by
  refine ⟨fun h => ⟨?_, ?_⟩, ?_, ?_, ?_, ?_⟩
  · intro d hd
    simp only [list_menu, if_neg h] at hd
    obtain ⟨d', hd', rfl⟩ := List.mem_map.mp hd
    rw [dlookup_stripId_ne _ _ (by decide)]
    exact mem_get_documents _ _ _ _ _ hd' _ _ (List.mem_singleton.mpr rfl)
  · intro d hd
    simp only [list_gallery, if_neg h] at hd
    obtain ⟨d', hd', rfl⟩ := List.mem_map.mp hd
    rw [dlookup_stripId_ne _ _ (by decide)]
    exact mem_get_documents _ _ _ _ _ hd' _ _ (List.mem_singleton.mpr rfl)
  · show List.map stripId (get_documents "menuitem" [] limit st) =
      List.map stripId (List.take limit (getColl st "menuitem"))
    rw [get_documents_nil]
  · show List.map stripId (get_documents "menuitem" [] limit st) =
      List.map stripId (List.take limit (getColl st "menuitem"))
    rw [get_documents_nil]
  · show List.map stripId (get_documents "galleryitem" [] limit st) =
      List.map stripId (List.take limit (getColl st "galleryitem"))
    rw [get_documents_nil]
  · show List.map stripId (get_documents "galleryitem" [] limit st) =
      List.map stripId (List.take limit (getColl st "galleryitem"))
    rw [get_documents_nil]

/-- C5 witness: with `category="Cocktails"` on `stMenuGal`, the returned
cocktail entry matches the supplied category exactly. -/
theorem claim_C5_filters_amended_witness :
    dlookup [("name", Value.str "House Old Fashioned"),
             ("category", Value.str "Cocktails")] "category" =
      some (Value.str "Cocktails") :=
  ((claim_C5_filters_amended stMenuGal 50 "Cocktails").1
    (by decide)).1 _ (by decide)

/-- C6: for every store state and every read-endpoint argument, no
record returned by any of the four read endpoints contains the
store-assigned `_id` field. -/
theorem claim_C6_no_id (st : Store) (limit : Nat) (cat : Option String)
    (hol : Bool) :
    (∀ d ∈ list_testimonials limit st, dlookup d "_id" = none) ∧
    (∀ d ∈ list_menu cat limit st, dlookup d "_id" = none) ∧
    (∀ d ∈ list_events hol limit st, dlookup d "_id" = none) ∧
    (∀ d ∈ list_gallery cat limit st, dlookup d "_id" = none) := by
  refine ⟨?_, ?_, ?_, ?_⟩ <;> intro d hd
  · simp only [list_testimonials] at hd
    obtain ⟨d', _, rfl⟩ := List.mem_map.mp hd
    exact dlookup_stripId_id d'
  · simp only [list_menu] at hd
    obtain ⟨d', _, rfl⟩ := List.mem_map.mp hd
    exact dlookup_stripId_id d'
  · simp only [list_events] at hd
    obtain ⟨d', _, rfl⟩ := List.mem_map.mp hd
    exact dlookup_stripId_id d'
  · simp only [list_gallery] at hd
    obtain ⟨d', _, rfl⟩ := List.mem_map.mp hd
    exact dlookup_stripId_id d'

/-- A store whose every document carries a store-assigned `_id`. -/
def stWithIds : Store :=
  [("testimonial",
    [[("_id", Value.str "t1"), ("author", Value.str "A"),
      ("quote", Value.str "Q")]]),
   ("menuitem",
    [[("_id", Value.str "m1"), ("name", Value.str "Wings"),
      ("category", Value.str "Starters")]]),
   ("event", [[("_id", Value.str "e1"), ("title", Value.str "Trivia")]]),
   ("galleryitem",
    [[("_id", Value.str "g1"), ("title", Value.str "Bar"),
      ("category", Value.str "interior")]])]

/-- C6 witness: the four endpoints on `stWithIds` return documents with
no `_id` field. -/
theorem claim_C6_no_id_witness :
    dlookup [("author", Value.str "A"), ("quote", Value.str "Q")]
      "_id" = none ∧
    dlookup [("name", Value.str "Wings"),
             ("category", Value.str "Starters")] "_id" = none ∧
    dlookup [("title", Value.str "Trivia")] "_id" = none ∧
    dlookup [("title", Value.str "Bar"),
             ("category", Value.str "interior")] "_id" = none :=
  ⟨(claim_C6_no_id stWithIds 10 none false).1 _ (by decide),
   ((claim_C6_no_id stWithIds 10 none false).2).1 _ (by decide),
   (((claim_C6_no_id stWithIds 10 none false).2).2).1 _ (by decide),
   (((claim_C6_no_id stWithIds 10 none false).2).2).2 _ (by decide)⟩

/-- A payload accepted by `InquiryIn` validation carries exactly the
validated email string, and that string passes the email check. -/
theorem validateInquiryIn_ok_email (d : Document) (p : InquiryIn)
    (h : validateInquiryIn d = .ok p) :
    dlookup d "email" = some (Value.str p.email) ∧
    isValidEmail p.email = true := by
  unfold validateInquiryIn at h
  split at h
  · rename_i n e m hn he hm
    by_cases hv : isValidEmail e
    · rw [if_pos hv] at h
      split at h
      · injection h with h'
        subst h'
        exact ⟨he, hv⟩
      · injection h with h'
        subst h'
        exact ⟨he, hv⟩
      · injection h with h'
        subst h'
        exact ⟨he, hv⟩
      · simp at h
    · rw [if_neg hv] at h
      simp at h
  · simp at h

/-- C3: a submission whose `email` string fails the syntactic email
check is rejected with a client error (HTTP 422) and the store is left
untouched — no document is written; a submission accepted by validation
returns the fixed `ok` acknowledgement and appends exactly one new
document to the `inquiry` collection, leaving every other collection
unchanged. -/
theorem claim_C3_inquiry_validation (d : Document) (st : Store) :
    (∀ s, dlookup d "email" = some (Value.str s) →
      isValidEmail s = false →
      postInquiry d st = (.clientError 422, st)) ∧
    (∀ p, validateInquiryIn d = .ok p →
      (postInquiry d st).1 = .ack true "Thanks! We'll be in touch soon." ∧
      getColl (postInquiry d st).2 "inquiry" =
        getColl st "inquiry" ++ [inquiryDump p] ∧
      ∀ c, c ≠ "inquiry" →
        getColl (postInquiry d st).2 c = getColl st c) := by
  constructor
  · intro s hs hv
    cases hval : validateInquiryIn d with
    | error e => simp [postInquiry, hval]
    | ok p =>
      obtain ⟨he, hv'⟩ := validateInquiryIn_ok_email d p hval
      rw [hs] at he
      simp only [Option.some.injEq, Value.str.injEq] at he
      subst he
      simp [hv] at hv'
  · intro p hp
    have h1 : postInquiry d st =
        (.ack true "Thanks! We'll be in touch soon.",
         create_document "inquiry" (inquiryDump p) st) := by
      simp [postInquiry, hp, create_inquiry]
    rw [h1]
    refine ⟨rfl, ?_, ?_⟩
    · exact getColl_create_same st "inquiry" (inquiryDump p)
    · intro c hc
      exact getColl_create_other st "inquiry" c (inquiryDump p) hc

/-- C3 witness: `email="not-an-email"` is rejected with 422 and no
write; a valid submission is acknowledged. -/
theorem claim_C3_inquiry_validation_witness :
    postInquiry
      [("name", Value.str "A"), ("email", Value.str "not-an-email"),
       ("message", Value.str "hi")] [] = (.clientError 422, []) ∧
    (postInquiry
      [("name", Value.str "A"), ("email", Value.str "a@b.com"),
       ("message", Value.str "hi")] []).1 =
      .ack true "Thanks! We'll be in touch soon." :=
  ⟨(claim_C3_inquiry_validation
      [("name", Value.str "A"), ("email", Value.str "not-an-email"),
       ("message", Value.str "hi")] []).1 "not-an-email" rfl (by decide),
   ((claim_C3_inquiry_validation
      [("name", Value.str "A"), ("email", Value.str "a@b.com"),
       ("message", Value.str "hi")] []).2
     ⟨"A", "a@b.com", "hi", none⟩ rfl).1⟩

/-- C9 counterexample: the schema accepts a testimonial whose `rating`
is an explicit `None` — `rating` is declared `Optional[int]`, so `null`
passes validation and the accepted record's rating is not an integer
between 1 and 5. -/
theorem claim_C9_counterexample :
    validateTestimonial
      [("author", Value.str "A"), ("quote", Value.str "Q"),
       ("rating", Value.null)] =
      .ok ⟨"A", "Q", none, none⟩ ∧
    (⟨"A", "Q", none, none⟩ : Testimonial).rating = none :=
  ⟨rfl, rfl⟩

/-- C9 (amended): every Testimonial record accepted by the schema has a
`rating` that is either an integer between 1 and 5 inclusive or an
explicit `None` (the field is declared `Optional[int]`); when the field
is absent it defaults to 5, and a `None` rating can only arise from an
explicit `null` in the document. -/
theorem claim_C9_rating_amended (d : Document) (t : Testimonial)
    (h : validateTestimonial d = .ok t) :
    (dlookup d "rating" = none → t.rating = some 5) ∧
    (t.rating = none → dlookup d "rating" = some Value.null) ∧
    ∀ n, t.rating = some n → 1 ≤ n ∧ n ≤ 5 := by
  unfold validateTestimonial at h
  split at h
  · rename_i a q r s ha hq hr hs
    injection h with h'
    subst h'
    unfold ratingField at hr
    split at hr
    · rename_i hnone
      injection hr with hr'
      subst hr'
      refine ⟨fun _ => rfl, ?_, ?_⟩
      · intro hcon
        simp at hcon
      · intro n hn
        injection hn with hn'
        subst hn'
        constructor
        · norm_num
        · norm_num
    · rename_i hnull
      injection hr with hr'
      subst hr'
      refine ⟨?_, fun _ => hnull, ?_⟩
      · intro hcon
        rw [hcon] at hnull
        cases hnull
      · intro n hn
        simp at hn
    · rename_i m hint
      split at hr
      · rename_i hbound
        injection hr with hr'
        subst hr'
        refine ⟨?_, ?_, ?_⟩
        · intro hcon
          rw [hcon] at hint
          cases hint
        · intro hcon
          simp at hcon
        · intro n hn
          injection hn with hn'
          subst hn'
          exact hbound
      · exact absurd hr (by simp)
    · exact absurd hr (by simp)
  · exact absurd h (by simp)

/-- C9 witness: a document without a `rating` field validates with the
default rating 5. -/
theorem claim_C9_rating_amended_witness :
    (⟨"A", "Q", some 5, none⟩ : Testimonial).rating = some 5 :=
  (claim_C9_rating_amended
    [("author", Value.str "A"), ("quote", Value.str "Q")]
    ⟨"A", "Q", some 5, none⟩ rfl).1 rfl
